import Mathlib

/-!
Shallow embedding of the risk scoring and explanation pipeline of the
student-dropout-prediction-system repository, together with theorems
settling the frozen claims about it.

Python floats are modelled as rationals; Python dictionaries of features
as association lists from strings to rationals; fallible Python code
(raised exceptions) as `Except`; external library calls (scikit-learn
models, SHAP, LIME) as oracle parameters whose outcomes are explicit
arguments of the embedded functions.
-/

/- Allow the elaborator to evaluate rational arithmetic on concrete
inputs (the kernel always could). -/
attribute [local semireducible] Rat.mul Rat.add Rat.sub Rat.inv

namespace Educare

/-- Decidable equality of `Except` results, used to evaluate the
embedded functions on concrete inputs. -/
instance instDecEqExcept {ε α : Type} [DecidableEq ε] [DecidableEq α] :
    DecidableEq (Except ε α)
  | Except.error e, Except.error f =>
    if h : e = f then Decidable.isTrue (by rw [h])
    else Decidable.isFalse (fun hh => by cases hh; exact h rfl)
  | Except.error _, Except.ok _ => Decidable.isFalse (fun hh => by cases hh)
  | Except.ok _, Except.error _ => Decidable.isFalse (fun hh => by cases hh)
  | Except.ok a, Except.ok b =>
    if h : a = b then Decidable.isTrue (by rw [h])
    else Decidable.isFalse (fun hh => by cases hh; exact h rfl)

/-! ## Feature contract (src/app/ml/config.py) -/

/-- `FEATURE_COLUMNS` from src/app/ml/config.py lines 20-29. -/
def FEATURE_COLUMNS : List String :=
  ["previous_qualification",
   "age_at_enrollment",
   "scholarship_holder",
   "debtor",
   "tuition_fees_up_to_date",
   "curricular_units_1st_sem_grade",
   "curricular_units_2nd_sem_grade",
   "gdp"]

/-- `RISK_THRESHOLDS['low']` from src/app/ml/config.py line 58. -/
def RISK_THRESHOLDS_low : ℚ := 30

/-- `RISK_THRESHOLDS['medium']` from src/app/ml/config.py line 59. -/
def RISK_THRESHOLDS_medium : ℚ := 60

/-- `RISK_THRESHOLDS['high']` from src/app/ml/config.py line 60. -/
def RISK_THRESHOLDS_high : ℚ := 100

/-- `get_risk_category` from src/app/ml/config.py lines 63-70. -/
def get_risk_category (risk_score : ℚ) : String :=
  if risk_score < RISK_THRESHOLDS_low then "Low"
  else if risk_score < RISK_THRESHOLDS_medium then "Medium"
  else "High"

/-! ## Inline categorizers duplicated in the two controllers -/

/-- The inline categorization of src/controllers/prediction_controller.py
lines 134-139 (the single-model prediction path). -/
def single_model_category (risk_score : ℚ) : String :=
  if risk_score ≥ 70 then "High"
  else if risk_score ≥ 40 then "Medium"
  else "Low"

/-- The inline categorization of
src/controllers/prediction_controller_advanced.py lines 115-120
(`MLModelManager.predict_with_model`, the multi-model prediction path). -/
def multi_model_category (risk_score : ℚ) : String :=
  if risk_score ≥ 70 then "High"
  else if risk_score ≥ 40 then "Medium"
  else "Low"

/-! ## Python rounding

`round(x, 2)` on a float; modelled on rationals as rounding
`100 * x` to the nearest integer.  (CPython uses round-half-to-even on
binary floats; no claim below depends on the direction of exact
half-way ties, so the Mathlib `round` tie convention is used.) -/

def pyRound2 (x : ℚ) : ℚ := (round (100 * x) : ℤ) / 100

/-- `round(x, 4)` used for SHAP values in the advanced controller. -/
def pyRound4 (x : ℚ) : ℚ := (round (10000 * x) : ℤ) / 10000

/-! ## Dictionaries and pandas column selection -/

/-- Lookup in a Python dictionary of features (`student_data[k]` /
`k in student_data`). -/
def dictGet (data : List (String × ℚ)) (k : String) : Option ℚ :=
  (data.find? (fun p => p.1 == k)).map Prod.snd

/-- `pd.DataFrame([student_data])[cols]`: select the columns `cols`
from the one-row frame built from the dictionary, in order; raise a
`KeyError` naming the missing columns when any of them is absent. -/
def selectColumns (cols : List String) (data : List (String × ℚ)) :
    Except String (List ℚ) :=
  if (cols.filter (fun c => (dictGet data c).isNone)).isEmpty then
    Except.ok (cols.map (fun c => (dictGet data c).getD 0))
  else
    Except.error ("KeyError: " ++ String.intercalate ", "
      (cols.filter (fun c => (dictGet data c).isNone)) ++ " not in index")

/-! ## Python string munging: `name.replace('_', ' ').title()` -/

/-- A character is cased in the Python sense; the feature names of
this program are ASCII, where cased means alphabetic. -/
def isCased (c : Char) : Bool := c.isAlpha

/-- Python `str.title()`: uppercase every character that follows a
non-cased character (including at the start and after digits, so
`1st` becomes `1St`), lowercase the rest.  The Bool argument records
whether the previous character was cased. -/
def titleChars : List Char → Bool → List Char
  | [], _ => []
  | c :: cs, prevCased =>
    (if prevCased then c.toLower else c.toUpper) :: titleChars cs (isCased c)

/-- `s.replace('_', ' ').title()` as applied to the feature names:
replace underscores with spaces, then Python title-casing. -/
def pyTitle (s : String) : String :=
  String.mk
    (titleChars (s.data.map (fun c => if c = '_' then ' ' else c)) false)

/-! ## A scikit-learn binary classifier, abstracted

`predict_proba` on a single row yields the pair of class probabilities
`(p0, p1)`; `feature_importances_` is present on tree models only. -/

structure SkModel where
  predict_proba : List ℚ → ℚ × ℚ
  feature_importances : Option (List ℚ)

/-! ## BasePredictor (src/app/ml/predictors/base_predictor.py) -/

/-- The two errors `BasePredictor` raises: `ValueError` for a missing
feature (prepare_features, line 35) and `RuntimeError` for an unloaded
model (predict, line 45). -/
inductive PredError where
  | missingFeature (name : String)
  | modelNotLoaded
deriving DecidableEq

/-- The predictor state after `load_model` (lines 20-27): the model
loaded, or `self.model = None` after a `FileNotFoundError`. -/
inductive LoadState where
  | loaded (m : SkModel)
  | loadFailed

/-- The loop of `BasePredictor.prepare_features` (lines 29-40) over a
given column list: raise `ValueError("Missing feature: ...")` at the
first absent column, otherwise collect the values in column order. -/
def prepare_features_go (features : List (String × ℚ)) :
    List String → Except PredError (List ℚ)
  | [] => Except.ok []
  | c :: cs =>
    match dictGet features c with
    | none => Except.error (PredError.missingFeature c)
    | some v => (prepare_features_go features cs).map (fun vs => v :: vs)

/-- `BasePredictor.prepare_features` (lines 29-40). -/
def prepare_features (features : List (String × ℚ)) :
    Except PredError (List ℚ) :=
  prepare_features_go features FEATURE_COLUMNS

/-- The result dictionary of `BasePredictor.predict` (lines 58-63). -/
structure PredictionResult where
  risk_score : ℚ
  risk_category : String
  dropout_probability : ℚ
  confidence : ℚ
deriving DecidableEq

/-- `BasePredictor.predict` (lines 42-63): reject when the model is not
loaded, prepare the features, take the class-1 probability, scale it by
100 (without rounding) and categorize it with `get_risk_category`. -/
def base_predict (st : LoadState) (features : List (String × ℚ)) :
    Except PredError PredictionResult :=
  match st with
  | LoadState.loadFailed => Except.error PredError.modelNotLoaded
  | LoadState.loaded m =>
    match prepare_features features with
    | Except.error e => Except.error e
    | Except.ok X =>
      let pred_proba := m.predict_proba X
      let dropout_prob := pred_proba.2
      let risk_score := dropout_prob * 100
      Except.ok
        { risk_score := risk_score
          risk_category := get_risk_category risk_score
          dropout_probability := dropout_prob
          confidence := max pred_proba.1 pred_proba.2 }

/-! ## DropoutPredictor (src/app/ml/predictors/dropout_predictor.py)
and BasePredictor.get_feature_importance -/

/-- One entry of the `get_feature_importance` output. -/
structure FeatImportance where
  name : String
  importance : ℚ
deriving DecidableEq

/-- Descending order on importance used by
`features.sort(key=lambda x: x['importance'], reverse=True)`. -/
def impGE (a b : FeatImportance) : Prop := b.importance ≤ a.importance

instance : DecidableRel impGE :=
  fun a b => inferInstanceAs (Decidable (b.importance ≤ a.importance))

instance : IsTotal FeatImportance impGE :=
  ⟨fun a b => (le_total b.importance a.importance).imp id id⟩

instance : IsTrans FeatImportance impGE :=
  ⟨fun _ _ _ h1 h2 => le_trans h2 h1⟩

/-- `BasePredictor.get_feature_importance` (lines 65-80): empty when no
model is loaded or the model exposes no importances; otherwise the
columns paired with `feature_importances_` by index, sorted by
descending importance. -/
def get_feature_importance (st : LoadState) : List FeatImportance :=
  match st with
  | LoadState.loadFailed => []
  | LoadState.loaded m =>
    match m.feature_importances with
    | none => []
    | some importances =>
      List.insertionSort impGE
        ((FEATURE_COLUMNS.zip importances).map
          (fun p => { name := p.1, importance := p.2 }))

/-- One entry of `top_features` in
`DropoutPredictor.predict_with_explanation` (lines 45-49):
name, the raw input value (`features.get(name, 0)`), and the global
importance. -/
structure ImpFeature where
  name : String
  value : ℚ
  importance : ℚ
deriving DecidableEq

/-- Result of `DropoutPredictor.predict_with_explanation`. -/
structure ExplainedResult where
  base : PredictionResult
  top_features : List ImpFeature
  feature_importance : List FeatImportance
deriving DecidableEq

/-- `DropoutPredictor.predict_with_explanation` (lines 32-54). -/
def predict_with_explanation (st : LoadState)
    (features : List (String × ℚ)) : Except PredError ExplainedResult :=
  match base_predict st features with
  | Except.error e => Except.error e
  | Except.ok result =>
    let fi := get_feature_importance st
    let top := (fi.take 3).map (fun f =>
      { name := f.name
        value := (dictGet features f.name).getD 0
        importance := f.importance : ImpFeature })
    Except.ok { base := result, top_features := top, feature_importance := fi }

/-! ## Legacy controller (src/controllers/prediction_controller.py) -/

/-- The controller duplicates the feature list (lines 117-126) instead
of importing `FEATURE_COLUMNS`. -/
def feature_columns_single : List String :=
  ["previous_qualification",
   "age_at_enrollment",
   "scholarship_holder",
   "debtor",
   "tuition_fees_up_to_date",
   "curricular_units_1st_sem_grade",
   "curricular_units_2nd_sem_grade",
   "gdp"]

/-- One entry of `top_features` (lines 226-230): title-cased name, raw
input value from `student_data`, signed SHAP value. -/
structure TopFeature where
  name : String
  value : ℚ
  shap_value : ℚ
deriving DecidableEq

/-- One entry of `lime_features` (lines 268-273). -/
structure LimeFeature where
  name : String
  value : ℚ
  lime_value : ℚ
  feature_desc : String
deriving DecidableEq

/-- Descending order on the absolute SHAP value, used by
`sort_values(by='abs_shap', ascending=False)` (line 221). -/
def shapGE (a b : String × ℚ) : Prop := |b.2| ≤ |a.2|

instance : DecidableRel shapGE :=
  fun a b => inferInstanceAs (Decidable (|b.2| ≤ |a.2|))

instance : IsTotal (String × ℚ) shapGE :=
  ⟨fun a b => (le_total |b.2| |a.2|).imp id id⟩

instance : IsTrans (String × ℚ) shapGE :=
  ⟨fun _ _ _ h1 h2 => le_trans h2 h1⟩

/-- Lines 215-230: pair the columns with the per-feature SHAP values,
sort by descending absolute SHAP value, keep the first three, and attach
the title-cased name and the raw value from the input dictionary. -/
def top_features_of (cols : List String) (shap_vals : List ℚ)
    (data : List (String × ℚ)) : List TopFeature :=
  let sorted := List.insertionSort shapGE (cols.zip shap_vals)
  (sorted.take 3).map (fun p =>
    { name := pyTitle p.1
      value := (dictGet data p.1).getD 0
      shap_value := p.2 : TopFeature })

/-- The outcome of the SHAP machinery of the legacy controller, as an
oracle: the module-level `explainer` may be unset (line 142); the
KernelExplainer path may find no dataset (line 181), fail construction
(line 183), or fail computation inside its try/except (line 194); the
TreeExplainer call at line 199 has no try/except, so its failure raises
out of the whole request; otherwise either explainer kind yields the
dropout-class SHAP values per feature. -/
inductive ShapOutcome where
  | noExplainer
  | kernelDatasetMissing
  | kernelBuildFailed
  | kernelComputeFailed
  | kernelOk (vals : List ℚ)
  | treeComputeRaises (exc : String)
  | treeOk (vals : List ℚ)
deriving DecidableEq

/-- The outcome of the LIME machinery (lines 232-279), as an oracle:
no cached explainer, a caught exception, or a computed list.  On
success the list built from the LIME explanation (string munging over
the external library output, lines 256-273) is abstracted as the
oracle value. -/
inductive LimeOutcome where
  | noCache
  | failed
  | ok (vals : List LimeFeature)
deriving DecidableEq

/-- `lime_features` as left by the LIME block: the initial `[]` unless
the cached explainer ran to completion. -/
def limeList : LimeOutcome → List LimeFeature
  | LimeOutcome.noCache => []
  | LimeOutcome.failed => []
  | LimeOutcome.ok vals => vals

/-- The legacy `predict_dropout_risk` returns tuples of two different
lengths: three components on the degraded paths (lines 110, 143, 182,
187, 196) and four on the full path (line 281). -/
inductive ControllerReturn where
  | triple (risk_score : ℚ) (risk_category : String)
      (top_features : List TopFeature)
  | quad (risk_score : ℚ) (risk_category : String)
      (top_features : List TopFeature) (lime_features : List LimeFeature)
deriving DecidableEq

def ControllerReturn.risk_score : ControllerReturn → ℚ
  | ControllerReturn.triple s _ _ => s
  | ControllerReturn.quad s _ _ _ => s

def ControllerReturn.risk_category : ControllerReturn → String
  | ControllerReturn.triple _ c _ => c
  | ControllerReturn.quad _ c _ _ => c

/-- `predict_dropout_risk` from src/controllers/prediction_controller.py
lines 96-281.  The module-level `model` is `Option SkModel` (line 22
vs 25); the SHAP and LIME machinery are the two oracles.  Uncaught
exceptions propagate as `Except.error`: the pandas `KeyError` from the
column selection (line 127) and a TreeExplainer `shap_values` failure
(line 199, which unlike the kernel path has no try/except). -/
def predict_dropout_risk (model : Option SkModel) (shap : ShapOutcome)
    (lime : LimeOutcome) (student_data : List (String × ℚ)) :
    Except String ControllerReturn :=
  match model with
  | none => Except.ok (ControllerReturn.triple 0 "N/A" [])
  | some m =>
    match selectColumns feature_columns_single student_data with
    | Except.error e => Except.error e
    | Except.ok X =>
      let risk_score := pyRound2 ((m.predict_proba X).2 * 100)
      let risk_category := single_model_category risk_score
      match shap with
      | ShapOutcome.noExplainer =>
        Except.ok (ControllerReturn.triple risk_score risk_category [])
      | ShapOutcome.kernelDatasetMissing =>
        Except.ok (ControllerReturn.triple risk_score risk_category [])
      | ShapOutcome.kernelBuildFailed =>
        Except.ok (ControllerReturn.triple risk_score risk_category [])
      | ShapOutcome.kernelComputeFailed =>
        Except.ok (ControllerReturn.triple risk_score risk_category [])
      | ShapOutcome.kernelOk vals =>
        Except.ok (ControllerReturn.quad risk_score risk_category
          (top_features_of feature_columns_single vals student_data)
          (limeList lime))
      | ShapOutcome.treeComputeRaises exc => Except.error exc
      | ShapOutcome.treeOk vals =>
        Except.ok (ControllerReturn.quad risk_score risk_category
          (top_features_of feature_columns_single vals student_data)
          (limeList lime))

/-! ## Advanced controller
(src/controllers/prediction_controller_advanced.py) -/

/-- The advanced controller also duplicates the feature list
(lines 92-101). -/
def feature_columns_adv : List String :=
  ["previous_qualification",
   "age_at_enrollment",
   "scholarship_holder",
   "debtor",
   "tuition_fees_up_to_date",
   "curricular_units_1st_sem_grade",
   "curricular_units_2nd_sem_grade",
   "gdp"]

/-- Lines 134-148: same ranking as the legacy controller but with the
SHAP value rounded to 4 decimal places. -/
def top_features_adv (cols : List String) (shap_vals : List ℚ)
    (data : List (String × ℚ)) : List TopFeature :=
  let sorted := List.insertionSort shapGE (cols.zip shap_vals)
  (sorted.take 3).map (fun p =>
    { name := pyTitle p.1
      value := (dictGet data p.1).getD 0
      shap_value := pyRound4 p.2 : TopFeature })

/-- `MLModelManager.predict_with_model` (lines 71-150) for a resolved
model: optional scaling for the neural-network entry (lines 106-110),
score and inline categorization (lines 112-120), SHAP top features when
an explainer exists for the entry (lines 122-148). -/
def predict_with_model (m : SkModel) (useScaler : Bool)
    (scaler : List ℚ → List ℚ) (hasExplainer : Bool) (shap_vals : List ℚ)
    (student_data : List (String × ℚ)) :
    Except String (ℚ × String × List TopFeature) :=
  match selectColumns feature_columns_adv student_data with
  | Except.error e => Except.error e
  | Except.ok X =>
    let Xs := if useScaler then scaler X else X
    let risk_score := pyRound2 ((m.predict_proba Xs).2 * 100)
    let risk_category := multi_model_category risk_score
    let top := if hasExplainer then
        top_features_adv feature_columns_adv shap_vals student_data
      else []
    Except.ok (risk_score, risk_category, top)

/-! ## Training runs (src/app/ml/pipeline/model_trainer.py and
src/app/ml/train_advanced_models.py)

Each candidate training-and-evaluation call is an oracle
`Except String Candidate`: the fitted model is abstracted away and only
the held-out metrics are kept; `Except.error` stands for an uncaught
exception (for example a convergence failure) raised while fitting that
candidate. -/

/-- The held-out metrics of one candidate, as stored in the comparison
report. -/
structure Candidate where
  accuracy : ℚ
  auc : ℚ
  precision_w : ℚ
  recall_w : ℚ
deriving DecidableEq

/-- One comparison step of the Python builtin `max`: a later candidate
displaces an earlier one only with a strictly greater key. -/
def pyMaxStep (x : String × Candidate) :
    Option (String × Candidate) → String × Candidate
  | none => x
  | some b => if b.2.accuracy > x.2.accuracy then b else x

/-- The Python builtin `max(items, key=lambda x: x[1]['accuracy'])`:
scan the items, replacing the current best only on a strictly greater
key, so the first element attaining the maximum wins ties. -/
def pyMaxByAccuracy : List (String × Candidate) → Option (String × Candidate)
  | [] => none
  | x :: xs => some (pyMaxStep x (pyMaxByAccuracy xs))

/-- The keys under which `ModelTrainer` stores fitted models
(model_trainer.py lines 27, 36, 45). -/
def trainer_model_keys : List String :=
  ["random_forest", "gradient_boosting", "neural_network"]

/-- `ModelTrainer.train_all_models` (model_trainer.py lines 72-115):
train the three candidates in order with no per-candidate error
handling (an exception propagates and aborts the run), evaluate them
under their display names, then select
`best_model_name = max(self.results, key=accuracy)` and look it up in
`self.models` — which is keyed by the snake_case names, so the lookup
raises `KeyError` (line 99). -/
def train_all_models (rf gb nn : Except String Candidate) :
    Except String (String × List (String × Candidate)) :=
  match rf with
  | Except.error e => Except.error e
  | Except.ok rfC =>
    match gb with
    | Except.error e => Except.error e
    | Except.ok gbC =>
      match nn with
      | Except.error e => Except.error e
      | Except.ok nnC =>
        let results := [("Random Forest", rfC), ("Gradient Boosting", gbC),
          ("Neural Network", nnC)]
        match pyMaxByAccuracy results with
        | none => Except.error "max() arg is an empty sequence"
        | some best =>
          if trainer_model_keys.contains best.1 then
            Except.ok (best.1, results)
          else
            Except.error ("KeyError: " ++ best.1)

/-- The candidate-name-to-artifact mapping of
train_advanced_models.py lines 356-363. -/
def best_model_path (name : String) : String :=
  if name = "Random Forest" then "random_forest_model.pkl"
  else if name = "Gradient Boosting" then "gradient_boosting_model.pkl"
  else if name = "Neural Network" then "neural_network_model.pkl"
  else "ensemble_model.pkl"

/-- Outcome of a completed `train_advanced_models.main` run: the
comparison report, the winning candidate name, and the artifact copied
to `model.pkl` as the current model. -/
structure RunReport where
  results : List (String × Candidate)
  best_model : String
  current_model_source : String
deriving DecidableEq

/-- `main` from src/app/ml/train_advanced_models.py lines 287-373:
train the four candidates strictly in sequence with no per-candidate
error handling, build the comparison report in that order, pick
`max(results.items(), key=accuracy)` and copy that candidate to
`model.pkl`. -/
def train_advanced_main (rf gb nn ens : Except String Candidate) :
    Except String RunReport :=
  match rf with
  | Except.error e => Except.error e
  | Except.ok rfC =>
    match gb with
    | Except.error e => Except.error e
    | Except.ok gbC =>
      match nn with
      | Except.error e => Except.error e
      | Except.ok nnC =>
        match ens with
        | Except.error e => Except.error e
        | Except.ok ensC =>
          let results := [("Random Forest", rfC),
            ("Gradient Boosting", gbC),
            ("Neural Network", nnC),
            ("Ensemble", ensC)]
          match pyMaxByAccuracy results with
          | none => Except.error "max() arg is an empty sequence"
          | some best =>
            Except.ok
              { results := results
                best_model := best.1
                current_model_source := best_model_path best.1 }

/-! ## The selection rule the spec states, for comparison

Modelled from the spec: "the candidate with the highest held-out
accuracy becomes current; ties broken by highest AUC". -/

def spec_select : List (String × Candidate) → Option (String × Candidate)
  | [] => none
  | x :: xs =>
    match spec_select xs with
    | none => some x
    | some b =>
      if b.2.accuracy > x.2.accuracy ∨
          (b.2.accuracy = x.2.accuracy ∧ b.2.auc > x.2.auc) then some b
      else some x

/-! ## Helper lemmas -/

lemma pyRound2_nonneg {x : ℚ} (h : 0 ≤ x) : 0 ≤ pyRound2 x := by
  unfold pyRound2
  have hr : (0 : ℤ) ≤ round (100 * x) := by
    rw [round_eq]
    exact Int.le_floor.mpr (by push_cast; linarith)
  positivity

lemma pyRound2_le_100 {x : ℚ} (h : x ≤ 100) : pyRound2 x ≤ 100 := by
  unfold pyRound2
  have hr : round (100 * x) ≤ 10000 := by
    rw [round_eq]
    have : (⌊100 * x + 1 / 2⌋ : ℤ) < 10001 := by
      rw [Int.floor_lt]
      push_cast
      linarith
    omega
  rw [div_le_iff₀ (by norm_num)]
  calc ((round (100 * x) : ℤ) : ℚ) ≤ ((10000 : ℤ) : ℚ) := by exact_mod_cast hr
    _ = 100 * 100 := by norm_num

/-- The first column of `cols` that is absent from `features` determines
the `ValueError` that the `prepare_features` loop raises. -/
lemma prepare_features_go_error {features : List (String × ℚ)}
    {cols : List String} {c : String} (hc : c ∈ cols)
    (hmiss : dictGet features c = none) :
    ∃ c₀ ∈ cols, dictGet features c₀ = none ∧
      prepare_features_go features cols =
        Except.error (PredError.missingFeature c₀) := by
  induction cols with
  | nil => cases hc
  | cons d ds ih =>
    by_cases hd : dictGet features d = none
    · exact ⟨d, List.mem_cons_self d ds, hd, by
        unfold prepare_features_go
        rw [hd]⟩
    · obtain ⟨v, hv⟩ := Option.ne_none_iff_exists'.mp hd
      have hc' : c ∈ ds := by
        rcases List.mem_cons.mp hc with h | h
        · exact absurd hmiss (h ▸ hd)
        · exact h
      obtain ⟨c₀, hc₀, hm₀, he₀⟩ := ih hc'
      refine ⟨c₀, List.mem_cons_of_mem d hc₀, hm₀, ?_⟩
      unfold prepare_features_go
      rw [hv, he₀]
      rfl

/-- `selectColumns` raises a `KeyError` whenever a requested column is
absent. -/
lemma selectColumns_error_of_missing {cols : List String}
    {data : List (String × ℚ)} {c : String} (hc : c ∈ cols)
    (hmiss : dictGet data c = none) :
    ∃ msg, selectColumns cols data = Except.error msg := by
  have hfilt : c ∈ cols.filter (fun c => (dictGet data c).isNone) :=
    List.mem_filter.mpr ⟨hc, by rw [hmiss]; rfl⟩
  have hne : (cols.filter (fun c => (dictGet data c).isNone)).isEmpty = false := by
    cases hval : cols.filter (fun c => (dictGet data c).isNone) with
    | nil => rw [hval] at hfilt; cases hfilt
    | cons a as => rfl
  refine ⟨"KeyError: " ++ String.intercalate ", "
      (cols.filter (fun c => (dictGet data c).isNone)) ++ " not in index", ?_⟩
  unfold selectColumns
  rw [hne]
  rfl

/-- `selectColumns` succeeds exactly when every requested column is
present, and then returns the stored values in column order. -/
lemma selectColumns_ok {cols : List String} {data : List (String × ℚ)}
    {X : List ℚ} (h : selectColumns cols data = Except.ok X) :
    X = cols.map (fun c => (dictGet data c).getD 0) := by
  unfold selectColumns at h
  by_cases he : (cols.filter (fun c => (dictGet data c).isNone)).isEmpty
  · rw [if_pos he] at h
    injection h with h
    exact h.symm
  · rw [if_neg he] at h
    cases h

/-- `pyMaxByAccuracy` returns `none` only on the empty list. -/
lemma pyMaxByAccuracy_none {l : List (String × Candidate)}
    (h : pyMaxByAccuracy l = none) : l = [] := by
  cases l with
  | nil => rfl
  | cons y ys => exact absurd h (by unfold pyMaxByAccuracy; exact fun hh => by cases hh)

/-- Python `max(..., key=accuracy)` returns the first element attaining
the maximal accuracy: it splits the list into a strictly-smaller prefix,
the winner, and a no-greater suffix. -/
lemma pyMaxByAccuracy_spec :
    ∀ (l : List (String × Candidate)) (b : String × Candidate),
    pyMaxByAccuracy l = some b →
    ∃ l₁ l₂, l = l₁ ++ b :: l₂ ∧
      (∀ x ∈ l, x.2.accuracy ≤ b.2.accuracy) ∧
      (∀ x ∈ l₁, x.2.accuracy < b.2.accuracy) := by
  intro l
  induction l with
  | nil => intro b h; cases h
  | cons x xs ih =>
    intro b h
    unfold pyMaxByAccuracy at h
    injection h with h
    cases hxs : pyMaxByAccuracy xs <;> rw [hxs] at h
    · simp only [pyMaxStep] at h
      subst h
      have hxs' : xs = [] := pyMaxByAccuracy_none hxs
      subst hxs'
      exact ⟨[], [], rfl, by simp, by simp⟩
    · rename_i bt
      simp only [pyMaxStep] at h
      split_ifs at h with hgt
      · subst h
        obtain ⟨l₁, l₂, hsplit, hle, hlt⟩ := ih bt hxs
        refine ⟨x :: l₁, l₂, by rw [hsplit]; rfl, ?_, ?_⟩
        · intro y hy
          rcases List.mem_cons.mp hy with h | h
          · exact h ▸ le_of_lt hgt
          · exact hle y h
        · intro y hy
          rcases List.mem_cons.mp hy with h | h
          · exact h ▸ hgt
          · exact hlt y h
      · subst h
        obtain ⟨l₁, l₂, hsplit, hle, _⟩ := ih bt hxs
        refine ⟨[], xs, rfl, ?_, by simp⟩
        intro y hy
        rcases List.mem_cons.mp hy with h | h
        · exact h ▸ le_refl _
        · exact le_trans (hle y h) (not_lt.mp hgt)

/-! ## Evaluating the categorizers on score ranges -/

lemma get_risk_category_eq_low {s : ℚ} (h : s < 30) :
    get_risk_category s = "Low" := by
  unfold get_risk_category RISK_THRESHOLDS_low
  rw [if_pos h]

lemma get_risk_category_eq_medium {s : ℚ} (h1 : 30 ≤ s) (h2 : s < 60) :
    get_risk_category s = "Medium" := by
  unfold get_risk_category RISK_THRESHOLDS_low RISK_THRESHOLDS_medium
  rw [if_neg (not_lt.mpr h1), if_pos h2]

lemma get_risk_category_eq_high {s : ℚ} (h : 60 ≤ s) :
    get_risk_category s = "High" := by
  unfold get_risk_category RISK_THRESHOLDS_low RISK_THRESHOLDS_medium
  rw [if_neg (not_lt.mpr (by linarith)), if_neg (not_lt.mpr h)]

lemma single_model_category_eq_low {s : ℚ} (h : s < 40) :
    single_model_category s = "Low" := by
  unfold single_model_category
  rw [if_neg (not_le.mpr (by linarith)), if_neg (not_le.mpr h)]

lemma single_model_category_eq_medium {s : ℚ} (h1 : 40 ≤ s) (h2 : s < 70) :
    single_model_category s = "Medium" := by
  unfold single_model_category
  rw [if_neg (not_le.mpr h2), if_pos h1]

lemma single_model_category_eq_high {s : ℚ} (h : 70 ≤ s) :
    single_model_category s = "High" := by
  unfold single_model_category
  rw [if_pos h]

/-! ## Shared concrete fixtures -/

/-- A complete sample feature dictionary (all eight canonical features
present). -/
def sample_features : List (String × ℚ) :=
  [("previous_qualification", 1), ("age_at_enrollment", 19),
   ("scholarship_holder", 0), ("debtor", 1),
   ("tuition_fees_up_to_date", 0),
   ("curricular_units_1st_sem_grade", 17/2),
   ("curricular_units_2nd_sem_grade", 39/5), ("gdp", 27/10)]

/-- The sample dictionary with the `gdp` feature removed. -/
def sample_features_missing_gdp : List (String × ℚ) :=
  [("previous_qualification", 1), ("age_at_enrollment", 19),
   ("scholarship_holder", 0), ("debtor", 1),
   ("tuition_fees_up_to_date", 0),
   ("curricular_units_1st_sem_grade", 17/2),
   ("curricular_units_2nd_sem_grade", 39/5)]

/-- A second complete sample dictionary with different values. -/
def sample_features_b : List (String × ℚ) :=
  [("previous_qualification", 1), ("age_at_enrollment", 18),
   ("scholarship_holder", 1), ("debtor", 0),
   ("tuition_fees_up_to_date", 1),
   ("curricular_units_1st_sem_grade", 86/5),
   ("curricular_units_2nd_sem_grade", 33/2), ("gdp", 4)]

/-- A sample tree model whose dropout probability is 1/3 on every row. -/
def third_model : SkModel :=
  { predict_proba := fun _ => (2/3, 1/3)
    feature_importances :=
      some [1/10, 2/10, 3/10, 4/10, 5/10, 6/10, 7/10, 8/10] }

/-- The feature-importance table of `third_model`, sorted by descending
importance. -/
def sample_importance_table : List FeatImportance :=
  [⟨"gdp", 8/10⟩, ⟨"curricular_units_2nd_sem_grade", 7/10⟩,
   ⟨"curricular_units_1st_sem_grade", 6/10⟩,
   ⟨"tuition_fees_up_to_date", 5/10⟩, ⟨"debtor", 4/10⟩,
   ⟨"scholarship_holder", 3/10⟩, ⟨"age_at_enrollment", 2/10⟩,
   ⟨"previous_qualification", 1/10⟩]

/-- The explained prediction of `third_model` on `sample_features`. -/
def sample_explained_a : ExplainedResult :=
  { base := ⟨100/3, "Medium", 1/3, 2/3⟩
    top_features := [⟨"gdp", 27/10, 8/10⟩,
      ⟨"curricular_units_2nd_sem_grade", 39/5, 7/10⟩,
      ⟨"curricular_units_1st_sem_grade", 17/2, 6/10⟩]
    feature_importance := sample_importance_table }

/-- The explained prediction of `third_model` on `sample_features_b`. -/
def sample_explained_b : ExplainedResult :=
  { base := ⟨100/3, "Medium", 1/3, 2/3⟩
    top_features := [⟨"gdp", 4, 8/10⟩,
      ⟨"curricular_units_2nd_sem_grade", 33/2, 7/10⟩,
      ⟨"curricular_units_1st_sem_grade", 86/5, 6/10⟩]
    feature_importance := sample_importance_table }

/-! ## Claims -/

/-- C1, counterexample: the program does not use one canonical threshold
table.  At risk score 35 the ML-config categorizer returns Medium while
both inline controller paths return Low. -/
theorem C1_counterexample :
    get_risk_category 35 = "Medium" ∧ single_model_category 35 = "Low" ∧
    multi_model_category 35 = "Low" ∧
    get_risk_category 35 ≠ single_model_category 35 ∧
    get_risk_category 35 ≠ multi_model_category 35 := by decide

/-- C1, amended: the two inline controller paths share one 40/70
threshold table and agree with each other on every score, but the
ML-config categorizer uses the 30/60 table, so for a score in [0,100]
the config category agrees with the inline category exactly when the
score lies outside [30,40) and outside [60,70). -/
theorem C1_threshold_tables (s : ℚ) (_h0 : 0 ≤ s) (_h100 : s ≤ 100) :
    single_model_category s = multi_model_category s ∧
    (get_risk_category s = single_model_category s ↔
      ¬ ((30 ≤ s ∧ s < 40) ∨ (60 ≤ s ∧ s < 70))) := by
  refine ⟨rfl, ?_⟩
  rcases lt_or_ge s 30 with h30 | h30
  · rw [get_risk_category_eq_low h30, single_model_category_eq_low (by linarith)]
    refine iff_of_true rfl ?_
    rintro (⟨h, _⟩ | ⟨h, _⟩) <;> linarith
  · rcases lt_or_ge s 40 with h40 | h40
    · rw [get_risk_category_eq_medium h30 (by linarith),
        single_model_category_eq_low h40]
      refine iff_of_false (by decide) ?_
      intro hn
      exact hn (Or.inl ⟨h30, h40⟩)
    · rcases lt_or_ge s 60 with h60 | h60
      · rw [get_risk_category_eq_medium (by linarith) h60,
          single_model_category_eq_medium h40 (by linarith)]
        refine iff_of_true rfl ?_
        rintro (⟨_, h⟩ | ⟨h, _⟩) <;> linarith
      · rcases lt_or_ge s 70 with h70 | h70
        · rw [get_risk_category_eq_high h60,
            single_model_category_eq_medium h40 h70]
          refine iff_of_false (by decide) ?_
          intro hn
          exact hn (Or.inr ⟨h60, h70⟩)
        · rw [get_risk_category_eq_high (by linarith),
            single_model_category_eq_high h70]
          refine iff_of_true rfl ?_
          rintro (⟨_, h⟩ | ⟨_, h⟩) <;> linarith

/-- C1, witness: the amended statement evaluated at score 35. -/
theorem C1_witness :
    single_model_category 35 = multi_model_category 35 ∧
    (get_risk_category 35 = single_model_category 35 ↔
      ¬ ((30 ≤ (35 : ℚ) ∧ (35 : ℚ) < 40) ∨
        (60 ≤ (35 : ℚ) ∧ (35 : ℚ) < 70))) :=
  C1_threshold_tables 35 (by decide) (by decide)

/-- C8: `get_risk_category` is a pure function of the score that
returns Low exactly below 30, Medium exactly on [30,60), and High
exactly from 60 up; a score equal to a threshold goes to the higher
side under the strict less-than convention. -/
theorem C8_get_risk_category_spec (s : ℚ) :
    (get_risk_category s = "Low" ↔ s < 30) ∧
    (get_risk_category s = "Medium" ↔ 30 ≤ s ∧ s < 60) ∧
    (get_risk_category s = "High" ↔ 60 ≤ s) ∧
    get_risk_category 30 = "Medium" ∧ get_risk_category 60 = "High" := by
  refine ⟨?_, ?_, ?_, by decide, by decide⟩
  · constructor
    · intro h
      by_contra hge
      rcases lt_or_ge s 60 with h60 | h60
      · rw [get_risk_category_eq_medium (not_lt.mp hge) h60] at h
        exact absurd h (by decide)
      · rw [get_risk_category_eq_high h60] at h
        exact absurd h (by decide)
    · exact get_risk_category_eq_low
  · constructor
    · intro h
      rcases lt_or_ge s 30 with h30 | h30
      · rw [get_risk_category_eq_low h30] at h
        exact absurd h (by decide)
      · rcases lt_or_ge s 60 with h60 | h60
        · exact ⟨h30, h60⟩
        · rw [get_risk_category_eq_high h60] at h
          exact absurd h (by decide)
    · exact fun ⟨h1, h2⟩ => get_risk_category_eq_medium h1 h2
  · constructor
    · intro h
      by_contra hge
      rcases lt_or_ge s 30 with h30 | h30
      · rw [get_risk_category_eq_low h30] at h
        exact absurd h (by decide)
      · rw [get_risk_category_eq_medium h30 (not_le.mp hge)] at h
        exact absurd h (by decide)
    · exact get_risk_category_eq_high

/-- C2, counterexample: `BasePredictor.predict` does not round.  With a
model whose dropout probability is 1/3, the returned risk score is
100/3, which differs from 1/3 · 100 rounded to two decimal places
(33.33). -/
theorem C2_counterexample :
    base_predict (LoadState.loaded third_model) sample_features =
      Except.ok ⟨100/3, "Medium", 1/3, 2/3⟩ ∧
    pyRound2 ((1/3) * 100) = 3333/100 ∧
    (100/3 : ℚ) ≠ 3333/100 := by decide

/-- C2, amended: for a valid feature vector and class probabilities in
[0,1], the legacy controller returns the class-1 probability times 100
rounded to two decimal places, while `BasePredictor.predict` returns it
times 100 unrounded; in both paths the risk score lies in [0,100].
Whenever the controller returns at all (every SHAP oracle outcome
except the uncaught tree-explainer failure, which raises out of the
request) it returns exactly that rounded, bounded score, and any
returned result carries it. -/
theorem C2_risk_score_paths (m : SkModel) (data : List (String × ℚ))
    (X : List ℚ) (shap : ShapOutcome) (lime : LimeOutcome)
    (hprep : prepare_features data = Except.ok X)
    (h0 : 0 ≤ (m.predict_proba X).2) (h1 : (m.predict_proba X).2 ≤ 1)
    (Y : List ℚ)
    (hsel : selectColumns feature_columns_single data = Except.ok Y)
    (g0 : 0 ≤ (m.predict_proba Y).2) (g1 : (m.predict_proba Y).2 ≤ 1) :
    (∃ r, base_predict (LoadState.loaded m) data = Except.ok r ∧
      r.risk_score = (m.predict_proba X).2 * 100 ∧
      0 ≤ r.risk_score ∧ r.risk_score ≤ 100) ∧
    ((∀ exc, shap ≠ ShapOutcome.treeComputeRaises exc) →
      ∃ c, predict_dropout_risk (some m) shap lime data = Except.ok c ∧
        c.risk_score = pyRound2 ((m.predict_proba Y).2 * 100) ∧
        0 ≤ c.risk_score ∧ c.risk_score ≤ 100) ∧
    (∀ c, predict_dropout_risk (some m) shap lime data = Except.ok c →
      c.risk_score = pyRound2 ((m.predict_proba Y).2 * 100) ∧
      0 ≤ c.risk_score ∧ c.risk_score ≤ 100) := by
  have hb0 : 0 ≤ pyRound2 ((m.predict_proba Y).2 * 100) :=
    pyRound2_nonneg (by linarith)
  have hb1 : pyRound2 ((m.predict_proba Y).2 * 100) ≤ 100 :=
    pyRound2_le_100 (by linarith)
  refine ⟨?_, ?_, ?_⟩
  · have heq : base_predict (LoadState.loaded m) data =
        Except.ok ⟨(m.predict_proba X).2 * 100,
          get_risk_category ((m.predict_proba X).2 * 100),
          (m.predict_proba X).2,
          max (m.predict_proba X).1 (m.predict_proba X).2⟩ := by
      unfold base_predict
      rw [hprep]
    refine ⟨_, heq, rfl, ?_, ?_⟩
    · show 0 ≤ (m.predict_proba X).2 * 100
      linarith
    · show (m.predict_proba X).2 * 100 ≤ 100
      linarith
  · intro hne
    unfold predict_dropout_risk
    rw [hsel]
    cases shap <;>
      first
        | exact ⟨_, rfl, rfl, hb0, hb1⟩
        | exact absurd rfl (hne _)
  · intro c hc
    unfold predict_dropout_risk at hc
    rw [hsel] at hc
    cases shap <;> cases hc <;> exact ⟨rfl, hb0, hb1⟩

/-- C2, witness: the amended statement evaluated on the sample model
and the complete sample dictionary. -/
theorem C2_witness :
    (∃ r, base_predict (LoadState.loaded third_model) sample_features =
        Except.ok r ∧
      r.risk_score =
        (third_model.predict_proba [1, 19, 0, 1, 0, 17/2, 39/5, 27/10]).2 * 100 ∧
      0 ≤ r.risk_score ∧ r.risk_score ≤ 100) ∧
    ((∀ exc, ShapOutcome.noExplainer ≠ ShapOutcome.treeComputeRaises exc) →
      ∃ c, predict_dropout_risk (some third_model) ShapOutcome.noExplainer
          LimeOutcome.noCache sample_features = Except.ok c ∧
        c.risk_score = pyRound2
          ((third_model.predict_proba
            [1, 19, 0, 1, 0, 17/2, 39/5, 27/10]).2 * 100) ∧
        0 ≤ c.risk_score ∧ c.risk_score ≤ 100) ∧
    (∀ c, predict_dropout_risk (some third_model) ShapOutcome.noExplainer
        LimeOutcome.noCache sample_features = Except.ok c →
      c.risk_score = pyRound2
        ((third_model.predict_proba
          [1, 19, 0, 1, 0, 17/2, 39/5, 27/10]).2 * 100) ∧
      0 ≤ c.risk_score ∧ c.risk_score ≤ 100) :=
  C2_risk_score_paths third_model sample_features
    [1, 19, 0, 1, 0, 17/2, 39/5, 27/10] ShapOutcome.noExplainer
    LimeOutcome.noCache (by decide) (by decide) (by decide)
    [1, 19, 0, 1, 0, 17/2, 39/5, 27/10] (by decide) (by decide) (by decide)

/-- C3, counterexample: with no model loaded, the legacy
`predict_dropout_risk` does not reject the request with an error; it
returns the default triple (0, N/A, []). -/
theorem C3_counterexample :
    predict_dropout_risk none ShapOutcome.noExplainer LimeOutcome.noCache
      sample_features = Except.ok (ControllerReturn.triple 0 "N/A" []) := by
  decide

/-- C3, amended: `BasePredictor.predict` in LoadFailed state rejects
every request with the model-not-loaded error, but the legacy controller
with no model loaded instead returns the sentinel triple
(0, N/A, []) without raising. -/
theorem C3_load_failed_behaviour :
    (∀ features, base_predict LoadState.loadFailed features =
      Except.error PredError.modelNotLoaded) ∧
    (∀ shap lime data, predict_dropout_risk none shap lime data =
      Except.ok (ControllerReturn.triple 0 "N/A" [])) :=
  ⟨fun _ => rfl, fun _ _ _ => rfl⟩

/-- C4: a feature dictionary missing a canonical feature is rejected
before the model is invoked, in both paths: `BasePredictor.predict`
raises the ValueError for the first missing column (the error is the
same for every model, so the model is never consulted), and the legacy
controller raises the pandas KeyError from column selection. -/
theorem C4_missing_feature_rejected (data : List (String × ℚ))
    (c : String) (m : SkModel) (shap : ShapOutcome) (lime : LimeOutcome)
    (hc : c ∈ FEATURE_COLUMNS) (hmiss : dictGet data c = none) :
    (∃ c₀, c₀ ∈ FEATURE_COLUMNS ∧ dictGet data c₀ = none ∧
      base_predict (LoadState.loaded m) data =
        Except.error (PredError.missingFeature c₀)) ∧
    (∃ msg, predict_dropout_risk (some m) shap lime data =
      Except.error msg) := by
  constructor
  · obtain ⟨c₀, hc₀, hm₀, he₀⟩ := prepare_features_go_error hc hmiss
    refine ⟨c₀, hc₀, hm₀, ?_⟩
    unfold base_predict prepare_features
    rw [he₀]
  · have hc' : c ∈ feature_columns_single := hc
    obtain ⟨msg, hmsg⟩ := selectColumns_error_of_missing hc' hmiss
    refine ⟨msg, ?_⟩
    unfold predict_dropout_risk
    rw [hmsg]

/-- C4, witness: the sample dictionary with `gdp` removed is rejected
by both paths. -/
theorem C4_witness :
    (∃ c₀, c₀ ∈ FEATURE_COLUMNS ∧
      dictGet sample_features_missing_gdp c₀ = none ∧
      base_predict (LoadState.loaded third_model) sample_features_missing_gdp =
        Except.error (PredError.missingFeature c₀)) ∧
    (∃ msg, predict_dropout_risk (some third_model) ShapOutcome.noExplainer
      LimeOutcome.noCache sample_features_missing_gdp = Except.error msg) :=
  C4_missing_feature_rejected sample_features_missing_gdp "gdp" third_model
    ShapOutcome.noExplainer LimeOutcome.noCache (by decide) (by decide)

/-- C5, counterexample: a convergence failure in one candidate aborts
the rest of the run.  In the advanced pipeline a first-candidate failure
aborts the run although the other three candidates would succeed; in
`ModelTrainer.train_all_models` a second-candidate failure aborts the
third candidate as well. -/
theorem C5_counterexample :
    train_advanced_main (Except.error "ConvergenceError")
      (Except.ok ⟨17/20, 4/5, 4/5, 4/5⟩) (Except.ok ⟨4/5, 4/5, 4/5, 4/5⟩)
      (Except.ok ⟨4/5, 4/5, 4/5, 4/5⟩) = Except.error "ConvergenceError" ∧
    train_all_models (Except.ok ⟨17/20, 4/5, 4/5, 4/5⟩)
      (Except.error "ConvergenceError") (Except.ok ⟨4/5, 4/5, 4/5, 4/5⟩) =
      Except.error "ConvergenceError" := by decide

/-- C5, amended: training is strictly sequential with no per-candidate
error handling: the first failing candidate aborts the whole advanced
run with its own error, and the run completes exactly when all four
candidates succeed (not merely when at least one does). -/
theorem C5_abort_semantics :
    (∀ rf gb nn ens,
      (∃ r, train_advanced_main rf gb nn ens = Except.ok r) ↔
      ((∃ a, rf = Except.ok a) ∧ (∃ b, gb = Except.ok b) ∧
       (∃ c, nn = Except.ok c) ∧ (∃ d, ens = Except.ok d))) ∧
    (∀ e gb nn ens,
      train_advanced_main (Except.error e) gb nn ens = Except.error e) ∧
    (∀ rf e nn ens, train_advanced_main (Except.ok rf) (Except.error e) nn
      ens = Except.error e) ∧
    (∀ rf gb e ens, train_advanced_main (Except.ok rf) (Except.ok gb)
      (Except.error e) ens = Except.error e) ∧
    (∀ rf gb nn e, train_advanced_main (Except.ok rf) (Except.ok gb)
      (Except.ok nn) (Except.error e) = Except.error e) := by
  refine ⟨?_, fun _ _ _ _ => rfl, fun _ _ _ _ => rfl, fun _ _ _ _ => rfl,
    fun _ _ _ _ => rfl⟩
  intro rf gb nn ens
  constructor
  · rintro ⟨r, hr⟩
    cases rf <;> cases gb <;> cases nn <;> cases ens <;>
      first
        | exact ⟨⟨_, rfl⟩, ⟨_, rfl⟩, ⟨_, rfl⟩, ⟨_, rfl⟩⟩
        | cases hr
  · rintro ⟨⟨a, ha⟩, ⟨b, hb⟩, ⟨c, hc⟩, ⟨d, hd⟩⟩
    subst ha hb hc hd
    exact ⟨_, rfl⟩

/-- C6, counterexample: with Random Forest and Gradient Boosting tied
on accuracy and Gradient Boosting ahead on AUC, the code persists
Random Forest as current (first in candidate order), not the
higher-AUC candidate the claim requires. -/
theorem C6_counterexample :
    (train_advanced_main (Except.ok ⟨9/10, 1/2, 9/10, 9/10⟩)
        (Except.ok ⟨9/10, 19/20, 9/10, 9/10⟩)
        (Except.ok ⟨1/2, 1/2, 1/2, 1/2⟩)
        (Except.ok ⟨1/2, 1/2, 1/2, 1/2⟩)).map (fun r => r.best_model) =
      Except.ok "Random Forest" ∧
    (spec_select [("Random Forest", ⟨9/10, 1/2, 9/10, 9/10⟩),
        ("Gradient Boosting", ⟨9/10, 19/20, 9/10, 9/10⟩),
        ("Neural Network", ⟨1/2, 1/2, 1/2, 1/2⟩),
        ("Ensemble", ⟨1/2, 1/2, 1/2, 1/2⟩)]).map Prod.fst =
      some "Gradient Boosting" ∧
    ("Random Forest" : String) ≠ "Gradient Boosting" := by decide

/-- C6, amended: in the advanced pipeline the persisted current model
is the candidate with maximal held-out accuracy, but ties are broken by
the fixed candidate order (the earliest-trained wins), not by AUC; and
`ModelTrainer.train_all_models` never persists a current model at all,
because selection looks the display-name key up in the snake-case-keyed
models dictionary and raises a KeyError. -/
theorem C6_selection_rule (rfC gbC nnC ensC : Candidate) (r : RunReport)
    (h : train_advanced_main (Except.ok rfC) (Except.ok gbC)
      (Except.ok nnC) (Except.ok ensC) = Except.ok r) :
    (∃ best l₁ l₂,
      pyMaxByAccuracy r.results = some best ∧
      r.best_model = best.1 ∧
      r.current_model_source = best_model_path best.1 ∧
      r.results = l₁ ++ best :: l₂ ∧
      (∀ x ∈ r.results, x.2.accuracy ≤ best.2.accuracy) ∧
      (∀ x ∈ l₁, x.2.accuracy < best.2.accuracy)) ∧
    (∃ nm, train_all_models (Except.ok rfC) (Except.ok gbC)
      (Except.ok nnC) = Except.error ("KeyError: " ++ nm)) := by
  constructor
  · obtain ⟨best, hbest⟩ : ∃ b, pyMaxByAccuracy
        [("Random Forest", rfC), ("Gradient Boosting", gbC),
         ("Neural Network", nnC), ("Ensemble", ensC)] = some b := ⟨_, rfl⟩
    unfold train_advanced_main at h
    dsimp only at h
    rw [hbest] at h
    cases h
    obtain ⟨l₁, l₂, hsplit, hle, hlt⟩ := pyMaxByAccuracy_spec _ best hbest
    exact ⟨best, l₁, l₂, hbest, rfl, rfl, hsplit, hle, hlt⟩
  · obtain ⟨b3, hb3⟩ : ∃ b, pyMaxByAccuracy
        [("Random Forest", rfC), ("Gradient Boosting", gbC),
         ("Neural Network", nnC)] = some b := ⟨_, rfl⟩
    obtain ⟨l₁, l₂, hsplit, _, _⟩ := pyMaxByAccuracy_spec _ b3 hb3
    have hmem : b3 ∈ [("Random Forest", rfC), ("Gradient Boosting", gbC),
        ("Neural Network", nnC)] := by
      rw [hsplit]
      exact List.mem_append_right _ (List.mem_cons_self _ _)
    have hname : b3.1 = "Random Forest" ∨ b3.1 = "Gradient Boosting" ∨
        b3.1 = "Neural Network" := by
      rcases List.mem_cons.mp hmem with h1 | hmem
      · exact Or.inl (by rw [h1])
      rcases List.mem_cons.mp hmem with h1 | hmem
      · exact Or.inr (Or.inl (by rw [h1]))
      rcases List.mem_cons.mp hmem with h1 | hmem
      · exact Or.inr (Or.inr (by rw [h1]))
      · cases hmem
    have hcont : b3.1 ∉ trainer_model_keys := by
      rcases hname with h1 | h1 | h1 <;> rw [h1] <;> decide
    refine ⟨b3.1, ?_⟩
    unfold train_all_models
    dsimp only
    rw [hb3]
    simp [hcont]

/-- C6, witness: the amended statement evaluated on a concrete run in
which Random Forest and Gradient Boosting tie on accuracy. -/
theorem C6_witness :
    (∃ best l₁ l₂,
      pyMaxByAccuracy (RunReport.mk
        [("Random Forest", ⟨9/10, 1/2, 9/10, 9/10⟩),
         ("Gradient Boosting", ⟨9/10, 19/20, 9/10, 9/10⟩),
         ("Neural Network", ⟨1/2, 1/2, 1/2, 1/2⟩),
         ("Ensemble", ⟨1/2, 1/2, 1/2, 1/2⟩)]
        "Random Forest" "random_forest_model.pkl").results = some best ∧
      (RunReport.mk
        [("Random Forest", ⟨9/10, 1/2, 9/10, 9/10⟩),
         ("Gradient Boosting", ⟨9/10, 19/20, 9/10, 9/10⟩),
         ("Neural Network", ⟨1/2, 1/2, 1/2, 1/2⟩),
         ("Ensemble", ⟨1/2, 1/2, 1/2, 1/2⟩)]
        "Random Forest" "random_forest_model.pkl").best_model = best.1 ∧
      (RunReport.mk
        [("Random Forest", ⟨9/10, 1/2, 9/10, 9/10⟩),
         ("Gradient Boosting", ⟨9/10, 19/20, 9/10, 9/10⟩),
         ("Neural Network", ⟨1/2, 1/2, 1/2, 1/2⟩),
         ("Ensemble", ⟨1/2, 1/2, 1/2, 1/2⟩)]
        "Random Forest" "random_forest_model.pkl").current_model_source =
          best_model_path best.1 ∧
      (RunReport.mk
        [("Random Forest", ⟨9/10, 1/2, 9/10, 9/10⟩),
         ("Gradient Boosting", ⟨9/10, 19/20, 9/10, 9/10⟩),
         ("Neural Network", ⟨1/2, 1/2, 1/2, 1/2⟩),
         ("Ensemble", ⟨1/2, 1/2, 1/2, 1/2⟩)]
        "Random Forest" "random_forest_model.pkl").results =
          l₁ ++ best :: l₂ ∧
      (∀ x ∈ (RunReport.mk
        [("Random Forest", ⟨9/10, 1/2, 9/10, 9/10⟩),
         ("Gradient Boosting", ⟨9/10, 19/20, 9/10, 9/10⟩),
         ("Neural Network", ⟨1/2, 1/2, 1/2, 1/2⟩),
         ("Ensemble", ⟨1/2, 1/2, 1/2, 1/2⟩)]
        "Random Forest" "random_forest_model.pkl").results,
        x.2.accuracy ≤ best.2.accuracy) ∧
      (∀ x ∈ l₁, x.2.accuracy < best.2.accuracy)) ∧
    (∃ nm, train_all_models (Except.ok ⟨9/10, 1/2, 9/10, 9/10⟩)
      (Except.ok ⟨9/10, 19/20, 9/10, 9/10⟩)
      (Except.ok ⟨1/2, 1/2, 1/2, 1/2⟩) =
      Except.error ("KeyError: " ++ nm)) :=
  C6_selection_rule ⟨9/10, 1/2, 9/10, 9/10⟩ ⟨9/10, 19/20, 9/10, 9/10⟩
    ⟨1/2, 1/2, 1/2, 1/2⟩ ⟨1/2, 1/2, 1/2, 1/2⟩ _ (by decide)

/-- C7, counterexample: the claim fails twice over.  When the
kernel-path SHAP computation fails, the legacy controller returns a
three-component tuple (risk score, category, empty list), omitting the
secondary explanation slot entirely and skipping the LIME computation
even though it would have succeeded; and when the tree-path SHAP
computation fails, the exception is uncaught and the whole request
fails without returning any score at all. -/
theorem C7_counterexample :
    predict_dropout_risk (some third_model) ShapOutcome.kernelComputeFailed
      (LimeOutcome.ok [⟨"Gdp", 27/10, 1/5, "gdp > 2.00"⟩]) sample_features =
      Except.ok (ControllerReturn.triple (3333/100) "Low" []) ∧
    predict_dropout_risk (some third_model)
      (ShapOutcome.treeComputeRaises "ExplainerError")
      (LimeOutcome.ok [⟨"Gdp", 27/10, 1/5, "gdp > 2.00"⟩]) sample_features =
      Except.error "ExplainerError" := by decide

/-- C7, amended: on a valid feature vector, the shape of the return
depends on the explainers.  When the SHAP explainer is absent, or the
kernel-path explainer fails construction or computation, the controller
keeps the valid risk score and category but returns only the three
components (score, category, empty list), and the LIME explanation is
skipped.  When the tree-path SHAP computation fails, the exception is
uncaught (line 199 has no try/except) and the whole request fails with
it: no score or category is returned.  Only when SHAP succeeds does the
controller return the four components, with the LIME list empty when
LIME is unavailable or failed. -/
theorem C7_explainability_degradation (m : SkModel) (lime : LimeOutcome)
    (data : List (String × ℚ)) (X : List ℚ)
    (hsel : selectColumns feature_columns_single data = Except.ok X) :
    (∀ shap, (shap = ShapOutcome.noExplainer ∨
        shap = ShapOutcome.kernelDatasetMissing ∨
        shap = ShapOutcome.kernelBuildFailed ∨
        shap = ShapOutcome.kernelComputeFailed) →
      predict_dropout_risk (some m) shap lime data =
        Except.ok (ControllerReturn.triple
          (pyRound2 ((m.predict_proba X).2 * 100))
          (single_model_category (pyRound2 ((m.predict_proba X).2 * 100)))
          [])) ∧
    (∀ exc,
      predict_dropout_risk (some m) (ShapOutcome.treeComputeRaises exc)
        lime data = Except.error exc) ∧
    (∀ vals,
      predict_dropout_risk (some m) (ShapOutcome.kernelOk vals) lime data =
        Except.ok (ControllerReturn.quad
          (pyRound2 ((m.predict_proba X).2 * 100))
          (single_model_category (pyRound2 ((m.predict_proba X).2 * 100)))
          (top_features_of feature_columns_single vals data)
          (limeList lime))) ∧
    (∀ vals,
      predict_dropout_risk (some m) (ShapOutcome.treeOk vals) lime data =
        Except.ok (ControllerReturn.quad
          (pyRound2 ((m.predict_proba X).2 * 100))
          (single_model_category (pyRound2 ((m.predict_proba X).2 * 100)))
          (top_features_of feature_columns_single vals data)
          (limeList lime))) ∧
    limeList LimeOutcome.noCache = [] ∧ limeList LimeOutcome.failed = [] := by
  refine ⟨?_, ?_, ?_, ?_, rfl, rfl⟩
  · rintro shap (rfl | rfl | rfl | rfl) <;>
      (unfold predict_dropout_risk; rw [hsel])
  · intro exc
    unfold predict_dropout_risk
    rw [hsel]
  · intro vals
    unfold predict_dropout_risk
    rw [hsel]
  · intro vals
    unfold predict_dropout_risk
    rw [hsel]

/-- C7, witness: the amended statement evaluated on the sample model and
dictionary with the LIME cache missing. -/
theorem C7_witness :
    (∀ shap, (shap = ShapOutcome.noExplainer ∨
        shap = ShapOutcome.kernelDatasetMissing ∨
        shap = ShapOutcome.kernelBuildFailed ∨
        shap = ShapOutcome.kernelComputeFailed) →
      predict_dropout_risk (some third_model) shap LimeOutcome.noCache
          sample_features =
        Except.ok (ControllerReturn.triple
          (pyRound2 ((third_model.predict_proba
            [1, 19, 0, 1, 0, 17/2, 39/5, 27/10]).2 * 100))
          (single_model_category (pyRound2 ((third_model.predict_proba
            [1, 19, 0, 1, 0, 17/2, 39/5, 27/10]).2 * 100)))
          [])) ∧
    (∀ exc,
      predict_dropout_risk (some third_model)
        (ShapOutcome.treeComputeRaises exc) LimeOutcome.noCache
        sample_features = Except.error exc) ∧
    (∀ vals,
      predict_dropout_risk (some third_model) (ShapOutcome.kernelOk vals)
          LimeOutcome.noCache sample_features =
        Except.ok (ControllerReturn.quad
          (pyRound2 ((third_model.predict_proba
            [1, 19, 0, 1, 0, 17/2, 39/5, 27/10]).2 * 100))
          (single_model_category (pyRound2 ((third_model.predict_proba
            [1, 19, 0, 1, 0, 17/2, 39/5, 27/10]).2 * 100)))
          (top_features_of feature_columns_single vals sample_features)
          (limeList LimeOutcome.noCache))) ∧
    (∀ vals,
      predict_dropout_risk (some third_model) (ShapOutcome.treeOk vals)
          LimeOutcome.noCache sample_features =
        Except.ok (ControllerReturn.quad
          (pyRound2 ((third_model.predict_proba
            [1, 19, 0, 1, 0, 17/2, 39/5, 27/10]).2 * 100))
          (single_model_category (pyRound2 ((third_model.predict_proba
            [1, 19, 0, 1, 0, 17/2, 39/5, 27/10]).2 * 100)))
          (top_features_of feature_columns_single vals sample_features)
          (limeList LimeOutcome.noCache))) ∧
    limeList LimeOutcome.noCache = [] ∧ limeList LimeOutcome.failed = [] :=
  C7_explainability_degradation third_model LimeOutcome.noCache
    sample_features [1, 19, 0, 1, 0, 17/2, 39/5, 27/10] (by decide)

/-- C9: the top-features list built by the legacy controller has at
most three entries, is sorted by descending absolute SHAP value, and
each entry carries the raw feature value stored in the input dictionary
under the (title-cased) feature name. -/
theorem C9_top_features_ranked (vals : List ℚ) (data : List (String × ℚ))
    (hpres : ∀ c ∈ feature_columns_single, (dictGet data c).isSome) :
    (top_features_of feature_columns_single vals data).length ≤ 3 ∧
    List.Sorted (fun a b : TopFeature => |b.shap_value| ≤ |a.shap_value|)
      (top_features_of feature_columns_single vals data) ∧
    (∀ tf ∈ top_features_of feature_columns_single vals data,
      ∃ c, c ∈ feature_columns_single ∧ tf.name = pyTitle c ∧
        dictGet data c = some tf.value) := by
  unfold top_features_of
  refine ⟨?_, ?_, ?_⟩
  · rw [List.length_map]
    exact List.length_take_le 3 _
  · have hs : List.Sorted shapGE
        (List.insertionSort shapGE (feature_columns_single.zip vals)) :=
      List.sorted_insertionSort shapGE _
    have ht : List.Sorted shapGE
        ((List.insertionSort shapGE (feature_columns_single.zip vals)).take 3) :=
      List.Pairwise.sublist (List.take_sublist 3 _) hs
    exact List.Pairwise.map _ (fun a b hab => hab) ht
  · intro tf htf
    rw [List.mem_map] at htf
    obtain ⟨p, hp, rfl⟩ := htf
    have hp' : p ∈ List.insertionSort shapGE (feature_columns_single.zip vals) :=
      List.take_subset 3 _ hp
    have hp2 : p ∈ feature_columns_single.zip vals :=
      (List.perm_insertionSort shapGE _).subset hp'
    have hc : p.1 ∈ feature_columns_single := (List.of_mem_zip hp2).1
    obtain ⟨v, hv⟩ := Option.isSome_iff_exists.mp (hpres p.1 hc)
    refine ⟨p.1, hc, rfl, ?_⟩
    rw [hv]
    rfl

/-- C9, witness: the ranking property evaluated on a concrete SHAP
vector over the sample dictionary. -/
theorem C9_witness :
    (top_features_of feature_columns_single
      [1/2, -3/4, 1/4, 0, 0, 0, 0, 0] sample_features).length ≤ 3 ∧
    List.Sorted (fun a b : TopFeature => |b.shap_value| ≤ |a.shap_value|)
      (top_features_of feature_columns_single
        [1/2, -3/4, 1/4, 0, 0, 0, 0, 0] sample_features) ∧
    (∀ tf ∈ top_features_of feature_columns_single
        [1/2, -3/4, 1/4, 0, 0, 0, 0, 0] sample_features,
      ∃ c, c ∈ feature_columns_single ∧ tf.name = pyTitle c ∧
        dictGet sample_features c = some tf.value) :=
  C9_top_features_ranked [1/2, -3/4, 1/4, 0, 0, 0, 0, 0] sample_features
    (by decide)

/-- C10: the top-features list of `predict_with_explanation` reports
the global feature importance of the model: for any two accepted
feature dictionaries given to the same predictor, the returned names
and importance values are identical (only the attached raw values can
differ). -/
theorem C10_importance_input_independent (st : LoadState)
    (f₁ f₂ : List (String × ℚ)) (r₁ r₂ : ExplainedResult)
    (h₁ : predict_with_explanation st f₁ = Except.ok r₁)
    (h₂ : predict_with_explanation st f₂ = Except.ok r₂) :
    r₁.top_features.map (fun t => t.name) =
      r₂.top_features.map (fun t => t.name) ∧
    r₁.top_features.map (fun t => t.importance) =
      r₂.top_features.map (fun t => t.importance) ∧
    r₁.feature_importance = r₂.feature_importance := by
  unfold predict_with_explanation at h₁ h₂
  cases hb₁ : base_predict st f₁ <;> rw [hb₁] at h₁
  · cases h₁
  cases hb₂ : base_predict st f₂ <;> rw [hb₂] at h₂
  · cases h₂
  cases h₁
  cases h₂
  refine ⟨?_, ?_, rfl⟩ <;> simp only [List.map_map] <;> rfl

/-- C10, witness: two different dictionaries given to the same loaded
predictor receive identical names and importance values in
`top_features`. -/
theorem C10_witness :
    sample_explained_a.top_features.map (fun t => t.name) =
      sample_explained_b.top_features.map (fun t => t.name) ∧
    sample_explained_a.top_features.map (fun t => t.importance) =
      sample_explained_b.top_features.map (fun t => t.importance) ∧
    sample_explained_a.feature_importance =
      sample_explained_b.feature_importance :=
  C10_importance_input_independent (LoadState.loaded third_model)
    sample_features sample_features_b sample_explained_a sample_explained_b
    (by decide) (by decide)

end Educare
